import Mathlib

/-
Shallow embedding of the control logic of `src/gui.py`
(Panasonic DC/DC Test Dashboard, professional edition).

Modelling conventions, stated once:

* Python floats are modelled by `PyFloat`: an exact rational for every
  finite value (the claims only concern decimal literals, which ℚ
  represents exactly), plus `nan`, `inf` and `ninf`, which Python's
  `float()` also produces (for "nan", "inf"/"infinity", "-inf" and
  their variants).  `PyFloat.gt` mirrors IEEE `>` on these values: any
  comparison with `nan` is false, `inf` is greater than every finite
  value, `ninf` than none.
* A tkinter entry field is modelled by its parse result: `some x` when
  Python `float(entry.get())` succeeds with value `x` (possibly
  non-finite), `none` when it raises `ValueError`.
* Driver handles (`scope`, `psu` globals): a `Bool` records whether the
  global is non-`None`.  The behaviour of each driver method is a
  parameter (`DriverBehavior`): `none` means the call returns normally
  (the mock drivers always do), `some cause` means it raises an
  exception whose message is `cause`.
* Side effects are made explicit: the session log (`log_message`) is a
  list of `LogEntry`; every driver method actually invoked is appended
  to an `ops` trace in invocation order; widget state that the claims
  mention (status labels, the PSU indicator, the animation flag) are
  plain fields.  Button `state=` changes and printing are elided.
* A Python exception that escapes a callback (there is no `try` around
  `toggle_psu` or `emergency_stop`) is modelled by returning the state
  reached so far together with `some cause`; tkinter prints the
  traceback but the GUI state mutations made before the raise persist.
-/

namespace Instruments

/-- Result of Python `float(...)` on a string that does not raise
`ValueError`: a finite value (exact rational), `nan`, or an
infinity. -/
inductive PyFloat where
  | finite : ℚ → PyFloat
  | nan : PyFloat
  | inf : PyFloat
  | ninf : PyFloat
  deriving DecidableEq

/-- Python `>` on floats (IEEE semantics): comparisons with `nan` are
always false, `inf` exceeds every finite value, `ninf` exceeds none. -/
def PyFloat.gt : PyFloat → PyFloat → Bool
  | .finite a, .finite b => decide (a > b)
  | .finite _, .inf => false
  | .finite _, .ninf => true
  | .finite _, .nan => false
  | .inf, .finite _ => true
  | .inf, .inf => false
  | .inf, .ninf => true
  | .inf, .nan => false
  | .ninf, _ => false
  | .nan, _ => false

/-- Driver-level operations of the two instrument drivers
(`DS1000Z`/`MockDS1000Z` and `DP800`/`MockDP800`). -/
inductive DriverOp where
  | scopeReset : DriverOp
  | scopeSetAmplitude : PyFloat → DriverOp
  | scopeSetFrequency : PyFloat → DriverOp
  | scopeEnableSource : DriverOp
  | psuSetChannel : PyFloat → PyFloat → ℕ → DriverOp
  | psuEnableOutput : ℕ → DriverOp
  | psuDisableOutput : ℕ → DriverOp
  deriving DecidableEq

/-- True for the operations addressed to the power supply driver. -/
def DriverOp.isPsuOp : DriverOp → Bool
  | .psuSetChannel _ _ _ => true
  | .psuEnableOutput _ => true
  | .psuDisableOutput _ => true
  | _ => false

/-- Entries appended to the session log window by `log_message` calls in
the source, identified by call site (the timestamp prefix is elided). -/
inductive LogEntry where
  | connecting : LogEntry
  | ready : LogEntry
  | masterStart : LogEntry
  | scopeSafetyReject : LogEntry
  | psuSafetyReject : LogEntry
  | scopeSet : PyFloat → PyFloat → LogEntry
  | psuSet : PyFloat → PyFloat → LogEntry
  | psuOutputOn : LogEntry
  | psuOutputOff : LogEntry
  | sequenceComplete : LogEntry
  | sequenceAborted : LogEntry
  | emergencyStop : LogEntry
  deriving DecidableEq

/-- The mutable state of the dashboard that the claims mention: the two
handle globals, the parse results of the four numeric entry fields, the
session log, the trace of driver operations invoked so far, and the
widget/animation state. -/
structure GuiState where
  scope : Bool
  psu : Bool
  scopeVolts : Option PyFloat
  scopeFreq : Option PyFloat
  psuVolts : Option PyFloat
  psuCurr : Option PyFloat
  log : List LogEntry
  ops : List DriverOp
  psuInd : Bool
  scopeStatus : String
  psuStatus : String
  isRunning : Bool
  pendingTick : Bool
  lastPlot : Option (PyFloat × PyFloat)
  ticks : ℕ
  deriving DecidableEq

/-- Effect of `log_message`: append one entry to the log window. -/
def GuiState.logMsg (st : GuiState) (e : LogEntry) : GuiState :=
  { st with log := st.log ++ [e] }

/-- Record that a driver method was invoked (reached the driver). -/
def GuiState.invoke (st : GuiState) (op : DriverOp) : GuiState :=
  { st with ops := st.ops ++ [op] }

/-- Outcome of each driver method: `none` = returns normally,
`some cause` = raises an exception with message `cause`. -/
structure DriverBehavior where
  reset : Option String
  setAmplitude : PyFloat → Option String
  setFrequency : PyFloat → Option String
  enableSource : Option String
  setChannel : PyFloat → PyFloat → ℕ → Option String
  enableOutput : ℕ → Option String
  disableOutput : ℕ → Option String

/-- The simulated drivers (`MockDS1000Z`, `MockDP800`): every method
returns normally. -/
def simBehavior : DriverBehavior where
  reset := none
  setAmplitude := fun _ => none
  setFrequency := fun _ => none
  enableSource := none
  setChannel := fun _ _ _ => none
  enableOutput := fun _ => none
  disableOutput := fun _ => none

/-- Embedding of `run_scope_sequence` (gui.py lines 148-161).  Returns
the Python return value and the state after the call.  The whole body
is inside `try: ... except: return False`, so a parse failure or a
raising driver call yields `false` with nothing logged. -/
def run_scope_sequence (beh : DriverBehavior) (st : GuiState) :
    Bool × GuiState :=
  if st.scope = false then (false, st)
  else
    match st.scopeVolts, st.scopeFreq with
    | some volts, some freq =>
      if volts.gt (.finite 20) then (false, st.logMsg .scopeSafetyReject)
      else
        let st1 := st.invoke (.scopeSetAmplitude volts)
        match beh.setAmplitude volts with
        | some _ => (false, st1)
        | none =>
          let st2 := st1.invoke (.scopeSetFrequency freq)
          match beh.setFrequency freq with
          | some _ => (false, st2)
          | none =>
            let st3 := st2.invoke .scopeEnableSource
            match beh.enableSource with
            | some _ => (false, st3)
            | none => (true, st3.logMsg (.scopeSet volts freq))
    | _, _ => (false, st)

/-- Embedding of `set_psu_params` (gui.py lines 163-174). -/
def set_psu_params (beh : DriverBehavior) (st : GuiState) :
    Bool × GuiState :=
  if st.psu = false then (false, st)
  else
    match st.psuVolts, st.psuCurr with
    | some volts, some curr =>
      if volts.gt (.finite 32) then (false, st.logMsg .psuSafetyReject)
      else
        let st1 := st.invoke (.psuSetChannel volts curr 1)
        match beh.setChannel volts curr 1 with
        | some _ => (false, st1)
        | none => (true, st1.logMsg (.psuSet volts curr))
    | _, _ => (false, st)

/-- Embedding of `toggle_psu` (gui.py lines 176-185).  There is no
`try` in the source, so a raising driver call escapes the function:
the second component is `some cause` in that case. -/
def toggle_psu (beh : DriverBehavior) (state : Bool) (st : GuiState) :
    GuiState × Option String :=
  if st.psu = false then (st, none)
  else if state then
    let st1 := st.invoke (.psuEnableOutput 1)
    match beh.enableOutput 1 with
    | some c => (st1, some c)
    | none => (({ st1 with psuInd := true }).logMsg .psuOutputOn, none)
  else
    let st1 := st.invoke (.psuDisableOutput 1)
    match beh.disableOutput 1 with
    | some c => (st1, some c)
    | none => (({ st1 with psuInd := false }).logMsg .psuOutputOff, none)

/-- Embedding of `run_master` (gui.py lines 187-193).  The Python
conjunction `run_scope_sequence() and set_psu_params()` short-circuits:
`set_psu_params` is not called when the scope sequence returned
`False`. -/
def run_master (beh : DriverBehavior) (st : GuiState) :
    GuiState × Option String :=
  let r1 := run_scope_sequence beh (st.logMsg .masterStart)
  if r1.1 then
    let r2 := set_psu_params beh r1.2
    if r2.1 then
      let r3 := toggle_psu beh true r2.2
      match r3.2 with
      | some c => (r3.1, some c)
      | none => (r3.1.logMsg .sequenceComplete, none)
    else (r2.2.logMsg .sequenceAborted, none)
  else (r1.2.logMsg .sequenceAborted, none)

/-- Scope half of `emergency_stop`: `if scope: scope.reset()`. -/
def estopScopePart (beh : DriverBehavior) (st : GuiState) :
    GuiState × Option String :=
  if st.scope then (st.invoke .scopeReset, beh.reset) else (st, none)

/-- PSU half of `emergency_stop`:
`if psu: psu.disable_output(1); psu_ind gray`. -/
def estopPsuPart (beh : DriverBehavior) (st : GuiState) :
    GuiState × Option String :=
  if st.psu then
    let st1 := st.invoke (.psuDisableOutput 1)
    match beh.disableOutput 1 with
    | some c => (st1, some c)
    | none => ({ st1 with psuInd := false }, none)
  else (st, none)

/-- Embedding of `emergency_stop` (gui.py lines 195-200).  No `try` in
the source: a raise from `scope.reset()` escapes and the PSU half never
runs. -/
def emergency_stop (beh : DriverBehavior) (st : GuiState) :
    GuiState × Option String :=
  let st0 := st.logMsg .emergencyStop
  match estopScopePart beh st0 with
  | (st1, some c) => (st1, some c)
  | (st1, none) => estopPsuPart beh st1

/-- Embedding of `update_graph` (gui.py lines 113-145), one tick.
Firing consumes the pending `root.after` callback; when `is_running`
is false the body returns at once, doing no work and rescheduling
nothing.  Otherwise unparsable amplitude/frequency fields default to
`1.0`, the wave is redrawn (`lastPlot`, `ticks`), and the next tick is
scheduled.  Plotting itself is assumed not to raise (the outer
`except Exception: pass` is therefore never reached). -/
def update_graph (st : GuiState) : GuiState :=
  let st0 := { st with pendingTick := false }
  if st0.isRunning = false then st0
  else
    let amp := st0.scopeVolts.getD (.finite 1)
    let freq := st0.scopeFreq.getD (.finite 1)
    { st0 with
      lastPlot := some (amp, freq)
      ticks := st0.ticks + 1
      pendingTick := true }

/-- Embedding of `on_closing` (gui.py lines 218-223): clear the
animation flag (window destruction elided). -/
def on_closing (st : GuiState) : GuiState :=
  { st with isRunning := false }

/-- Result of constructing each driver handle in
`connect_instruments`: `ok` = constructor returned, `error cause` =
constructor raised with message `cause`. -/
structure ConnectBehavior where
  scopeHandle : Except String Unit
  psuHandle : Except String Unit

/-- Embedding of `connect_instruments` (gui.py lines 85-110).  Each
constructor is wrapped in its own bare `except`, which only flips the
status label to the fixed text ERROR; on success the handle global is
assigned and the label reads CONNECTED.  When at least one handle is
live the buttons are enabled (elided), Ready is logged, and the
animation loop is started if not already running. -/
def connect_instruments (cb : ConnectBehavior) (st : GuiState) :
    GuiState :=
  let st0 := st.logMsg .connecting
  let st1 :=
    match cb.scopeHandle with
    | .ok _ => { st0 with scope := true, scopeStatus := "CONNECTED" }
    | .error _ => { st0 with scopeStatus := "ERROR" }
  let st2 :=
    match cb.psuHandle with
    | .ok _ => { st1 with psu := true, psuStatus := "CONNECTED" }
    | .error _ => { st1 with psuStatus := "ERROR" }
  if st2.scope || st2.psu then
    let st3 := st2.logMsg .ready
    if st2.isRunning = false then
      update_graph { st3 with isRunning := true }
    else st3
  else st2

/-- Header row written by `update_excel_log` when the workbook file is
absent (gui.py line 207). -/
def excelHeader : List String :=
  ["Timestamp", "Tech", "Scope V", "Scope Hz", "PSU V", "PSU A", "Log"]

/-- Row appended by `update_excel_log` (gui.py lines 211-212): the raw
entry-field strings of the current session. -/
def sessionRow (ts tech sv sf pv pc transcript : String) :
    List String :=
  [ts, tech, sv, sf, pv, pc, transcript]

/-- Embedding of the success path of `update_excel_log` (gui.py lines
202-216).  A workbook is a list of rows; `none` models an absent file.
Absent: a fresh workbook gets the header row, then the session row is
appended; present: the loaded rows are kept and the session row is
appended. -/
def update_excel_log (file : Option (List (List String)))
    (row : List String) : List (List String) :=
  match file with
  | none => [excelHeader, row]
  | some rows => rows ++ [row]

/-! ### Concrete states and behaviours used to instantiate theorems -/

/-- The freshly laid-out dashboard: nothing connected, entry fields at
their built-in defaults (scope 5.0 V / 50 Hz, PSU 12.0 V / 1.0 A),
status labels Offline, animation not started. -/
def st0 : GuiState where
  scope := false
  psu := false
  scopeVolts := some (.finite 5)
  scopeFreq := some (.finite 50)
  psuVolts := some (.finite 12)
  psuCurr := some (.finite 1)
  log := []
  ops := []
  psuInd := false
  scopeStatus := "Offline"
  psuStatus := "Offline"
  isRunning := false
  pendingTick := false
  lastPlot := none
  ticks := 0

/-- Both instruments connected in sim mode, defaults in the fields. -/
def stReady : GuiState :=
  { st0 with
    scope := true
    psu := true
    scopeStatus := "CONNECTED"
    psuStatus := "CONNECTED"
    isRunning := true
    pendingTick := true }

/-- Connected, with both safety limits exceeded in the fields
(scope 25 V, PSU 40 V). -/
def stOver : GuiState :=
  { stReady with
    scopeVolts := some (.finite 25)
    psuVolts := some (.finite 40) }

/-- Connected, with both fields exactly at their limits
(scope 20.0 V, PSU 32.0 V). -/
def stAtLimit : GuiState :=
  { stReady with
    scopeVolts := some (.finite 20)
    psuVolts := some (.finite 32) }

/-- Connected, with both fields just over their limits
(scope 20.0001 V, PSU 32.1 V). -/
def stJustOver : GuiState :=
  { stReady with
    scopeVolts := some (.finite (20.0001 : ℚ))
    psuVolts := some (.finite (32.1 : ℚ)) }

/-- Connected, with "nan" typed into the scope amplitude and PSU
voltage fields: `float("nan")` succeeds with a non-finite value. -/
def stNanInput : GuiState :=
  { stReady with scopeVolts := some .nan, psuVolts := some .nan }

/-- Connected, with "inf" typed into the scope amplitude and PSU
voltage fields: `float("inf")` succeeds with positive infinity. -/
def stInfInput : GuiState :=
  { stReady with scopeVolts := some .inf, psuVolts := some .inf }

/-- Scope connected but no PSU handle, in-limit defaults. -/
def stPsuMissing : GuiState :=
  { stReady with psu := false, psuStatus := "Offline" }

/-- Connected, but the scope amplitude and PSU voltage fields hold
text that does not parse as a number. -/
def stNoParse : GuiState :=
  { stReady with scopeVolts := none, psuVolts := none }

/-- Connected and animating, with both scope fields unparsable. -/
def stBothNoParse : GuiState :=
  { stReady with scopeVolts := none, scopeFreq := none }

/-- A scope driver whose `set_source_amplitude` raises with message
`c`; the other methods return normally. -/
def behFailAmp (c : String) : DriverBehavior :=
  { simBehavior with setAmplitude := fun _ => some c }

/-- A scope driver whose `set_source_frequency` raises with message
`c`. -/
def behFailFreq (c : String) : DriverBehavior :=
  { simBehavior with setFrequency := fun _ => some c }

/-- A scope driver whose `enable_source` raises with message `c`. -/
def behFailEnable (c : String) : DriverBehavior :=
  { simBehavior with enableSource := some c }

/-- A PSU driver whose `set_channel` raises with message `c`. -/
def behFailChannel (c : String) : DriverBehavior :=
  { simBehavior with setChannel := fun _ _ _ => some c }

/-- A PSU driver whose `enable_output` raises with message `c`. -/
def behFailOutput (c : String) : DriverBehavior :=
  { simBehavior with enableOutput := fun _ => some c }

/-- A scope driver whose `reset` raises with message `c`. -/
def behFailReset (c : String) : DriverBehavior :=
  { simBehavior with reset := some c }

/-! ### Basic lemmas about the state helpers -/

@[simp] theorem logMsg_ops (st : GuiState) (e : LogEntry) :
    (st.logMsg e).ops = st.ops := rfl

@[simp] theorem logMsg_log (st : GuiState) (e : LogEntry) :
    (st.logMsg e).log = st.log ++ [e] := rfl

@[simp] theorem invoke_ops (st : GuiState) (op : DriverOp) :
    (st.invoke op).ops = st.ops ++ [op] := rfl

@[simp] theorem invoke_log (st : GuiState) (op : DriverOp) :
    (st.invoke op).log = st.log := rfl

@[simp] theorem logMsg_scope (st : GuiState) (e : LogEntry) :
    (st.logMsg e).scope = st.scope := rfl

@[simp] theorem logMsg_psu (st : GuiState) (e : LogEntry) :
    (st.logMsg e).psu = st.psu := rfl

@[simp] theorem logMsg_scopeVolts (st : GuiState) (e : LogEntry) :
    (st.logMsg e).scopeVolts = st.scopeVolts := rfl

@[simp] theorem logMsg_scopeFreq (st : GuiState) (e : LogEntry) :
    (st.logMsg e).scopeFreq = st.scopeFreq := rfl

@[simp] theorem logMsg_psuVolts (st : GuiState) (e : LogEntry) :
    (st.logMsg e).psuVolts = st.psuVolts := rfl

@[simp] theorem logMsg_psuCurr (st : GuiState) (e : LogEntry) :
    (st.logMsg e).psuCurr = st.psuCurr := rfl

@[simp] theorem invoke_scope (st : GuiState) (op : DriverOp) :
    (st.invoke op).scope = st.scope := rfl

@[simp] theorem invoke_psu (st : GuiState) (op : DriverOp) :
    (st.invoke op).psu = st.psu := rfl

/-! ### Shape lemmas for the two parameter-setting callbacks -/

/-- With no scope handle connected, `run_scope_sequence` returns
`False` immediately and touches nothing. -/
theorem run_scope_sequence_noscope (beh : DriverBehavior)
    (st : GuiState) (h : st.scope = false) :
    run_scope_sequence beh st = (false, st) := by
  unfold run_scope_sequence
  rw [h]
  simp

/-- With no PSU handle connected, `set_psu_params` returns `False`
immediately and touches nothing. -/
theorem set_psu_params_nopsu (beh : DriverBehavior) (st : GuiState)
    (h : st.psu = false) :
    set_psu_params beh st = (false, st) := by
  unfold set_psu_params
  rw [h]
  simp

/-- When the scope amplitude field parses to a value the guard
`volts > 20` catches, `run_scope_sequence` returns `False` and invokes
no driver operation. -/
theorem run_scope_sequence_reject (beh : DriverBehavior)
    (st : GuiState) (v : PyFloat) (hv : st.scopeVolts = some v)
    (h20 : v.gt (.finite 20) = true) :
    (run_scope_sequence beh st).1 = false ∧
    (run_scope_sequence beh st).2.ops = st.ops := by
  unfold run_scope_sequence
  cases hs : st.scope
  · simp
  · cases hf : st.scopeFreq
    · rw [hv]; simp
    · rw [hv]; simp [h20]

/-- Exact form of the scope safety rejection: when both fields parse
and the guard catches the amplitude, the call logs the SAFETY entry
and returns `False` with nothing else changed. -/
theorem run_scope_sequence_rejected (beh : DriverBehavior)
    (st : GuiState) (v f : PyFloat) (hs : st.scope = true)
    (hv : st.scopeVolts = some v) (hf : st.scopeFreq = some f)
    (h20 : v.gt (.finite 20) = true) :
    run_scope_sequence beh st = (false, st.logMsg .scopeSafetyReject)
    := by
  unfold run_scope_sequence
  rw [hs, hv, hf]
  simp [h20]

/-- When either scope entry field fails to parse, `run_scope_sequence`
returns `False` with the state untouched: nothing is logged and no
driver operation is invoked. -/
theorem run_scope_sequence_noparse (beh : DriverBehavior)
    (st : GuiState)
    (h : st.scopeVolts = none ∨ st.scopeFreq = none) :
    run_scope_sequence beh st = (false, st) := by
  unfold run_scope_sequence
  cases hs : st.scope
  · simp
  · rcases h with h | h
    · rw [h]; rcases st.scopeFreq with _ | f <;> simp
    · rw [h]; rcases st.scopeVolts with _ | v <;> simp

/-- Whatever the driver behaviour, `run_scope_sequence` only ever
appends scope operations to the trace and entries to the log; every
other field of the state is untouched. -/
theorem run_scope_sequence_shape (beh : DriverBehavior)
    (st : GuiState) :
    ∃ l e, (run_scope_sequence beh st).2 =
      { st with ops := st.ops ++ l, log := st.log ++ e } ∧
      ∀ op ∈ l, op.isPsuOp = false := by
  obtain ⟨sc, ps, sv, sf, pv, pc, lg, os, ind, ssl, psl, ir, pt, lp,
    tk⟩ := st
  cases sc
  · exact ⟨[], [], by simp [run_scope_sequence], by simp⟩
  · cases sv with
    | none => exact ⟨[], [], by simp [run_scope_sequence], by simp⟩
    | some v =>
      cases sf with
      | none => exact ⟨[], [], by simp [run_scope_sequence], by simp⟩
      | some f =>
        cases h20 : v.gt (.finite 20) with
        | true =>
          exact ⟨[], [.scopeSafetyReject],
            by simp [run_scope_sequence, h20, GuiState.logMsg],
            by simp⟩
        | false =>
          cases ha : beh.setAmplitude v
          · cases hb : beh.setFrequency f
            · cases hc : beh.enableSource
              · refine ⟨[.scopeSetAmplitude v, .scopeSetFrequency f,
                  .scopeEnableSource], [.scopeSet v f], ?_, ?_⟩
                · simp [run_scope_sequence, h20, ha, hb, hc,
                    GuiState.invoke, GuiState.logMsg]
                · simp [DriverOp.isPsuOp]
              · refine ⟨[.scopeSetAmplitude v, .scopeSetFrequency f,
                  .scopeEnableSource], [], ?_, ?_⟩
                · simp [run_scope_sequence, h20, ha, hb, hc,
                    GuiState.invoke]
                · simp [DriverOp.isPsuOp]
            · refine ⟨[.scopeSetAmplitude v, .scopeSetFrequency f],
                [], ?_, ?_⟩
              · simp [run_scope_sequence, h20, ha, hb,
                  GuiState.invoke]
              · simp [DriverOp.isPsuOp]
          · refine ⟨[.scopeSetAmplitude v], [], ?_, ?_⟩
            · simp [run_scope_sequence, h20, ha, GuiState.invoke]
            · simp [DriverOp.isPsuOp]

/-- When the PSU voltage field parses to a value the guard
`volts > 32` catches, `set_psu_params` returns `False` and invokes no
driver operation. -/
theorem set_psu_params_reject (beh : DriverBehavior) (st : GuiState)
    (w : PyFloat) (hw : st.psuVolts = some w)
    (h32 : w.gt (.finite 32) = true) :
    (set_psu_params beh st).1 = false ∧
    (set_psu_params beh st).2.ops = st.ops := by
  unfold set_psu_params
  cases hs : st.psu
  · simp
  · cases hc : st.psuCurr
    · rw [hw]; simp
    · rw [hw]; simp [h32]

/-- Exact form of the PSU safety rejection: when both fields parse and
the guard catches the voltage, the call logs the SAFETY entry and
returns `False` with nothing else changed. -/
theorem set_psu_params_rejected (beh : DriverBehavior)
    (st : GuiState) (w c : PyFloat) (hp : st.psu = true)
    (hw : st.psuVolts = some w) (hc : st.psuCurr = some c)
    (h32 : w.gt (.finite 32) = true) :
    set_psu_params beh st = (false, st.logMsg .psuSafetyReject) := by
  unfold set_psu_params
  rw [hp, hw, hc]
  simp [h32]

/-- Against the simulated drivers, a connected scope and parseable
in-limit entries make `run_scope_sequence` invoke the three scope
operations in order, log one combined entry, and return `True`. -/
theorem run_scope_sequence_success (st : GuiState) (v f : PyFloat)
    (hs : st.scope = true) (hv : st.scopeVolts = some v)
    (hf : st.scopeFreq = some f) (h20 : v.gt (.finite 20) = false) :
    run_scope_sequence simBehavior st =
      (true, { st with
        ops := st.ops ++ [.scopeSetAmplitude v, .scopeSetFrequency f,
          .scopeEnableSource],
        log := st.log ++ [.scopeSet v f] }) := by
  obtain ⟨sc, ps, sv, sf, pv, pc, lg, os, ind, ssl, psl, ir, pt, lp,
    tk⟩ := st
  simp only at hs hv hf
  subst hs hv hf
  simp [run_scope_sequence, simBehavior, h20, GuiState.invoke,
    GuiState.logMsg]

/-- Against the simulated drivers, a connected PSU and parseable
in-limit entries make `set_psu_params` invoke `set_channel`, log one
entry, and return `True`. -/
theorem set_psu_params_success (st : GuiState) (w c : PyFloat)
    (hp : st.psu = true) (hw : st.psuVolts = some w)
    (hc : st.psuCurr = some c) (h32 : w.gt (.finite 32) = false) :
    set_psu_params simBehavior st =
      (true, { st with
        ops := st.ops ++ [.psuSetChannel w c 1],
        log := st.log ++ [.psuSet w c] }) := by
  obtain ⟨sc, ps, sv, sf, pv, pc, lg, os, ind, ssl, psl, ir, pt, lp,
    tk⟩ := st
  simp only at hp hw hc
  subst hp hw hc
  simp [set_psu_params, simBehavior, h32, GuiState.invoke,
    GuiState.logMsg]

/-- Against the simulated drivers, `toggle_psu True` with a connected
PSU enables channel 1, turns the indicator green and logs one entry. -/
theorem toggle_psu_on (st : GuiState) (hp : st.psu = true) :
    toggle_psu simBehavior true st =
      ({ st with
         ops := st.ops ++ [.psuEnableOutput 1],
         log := st.log ++ [.psuOutputOn],
         psuInd := true }, none) := by
  obtain ⟨sc, ps, sv, sf, pv, pc, lg, os, ind, ssl, psl, ir, pt, lp,
    tk⟩ := st
  simp only at hp
  subst hp
  simp [toggle_psu, simBehavior, GuiState.invoke, GuiState.logMsg]

/-- When either PSU entry field fails to parse, `set_psu_params`
returns `False` with the state untouched. -/
theorem set_psu_params_noparse (beh : DriverBehavior) (st : GuiState)
    (h : st.psuVolts = none ∨ st.psuCurr = none) :
    set_psu_params beh st = (false, st) := by
  unfold set_psu_params
  cases hs : st.psu
  · simp
  · rcases h with h | h
    · rw [h]; rcases st.psuCurr with _ | c <;> simp
    · rw [h]; rcases st.psuVolts with _ | w <;> simp

/-! ### Claim C1 -/

/-- C1: For every run of the master sequence, a safety rejection keeps
the rejected parameter away from the driver and short-circuits the
rest of the sequence.  If the scope amplitude field parses to a value
the `volts > 20` guard catches (any finite value above 20 V, or
positive infinity), the run invokes no driver operation at all (in
particular neither `set_channel`, `enable_output`, nor the PSU
toggle) and returns normally.  If the PSU voltage field parses to a
value the `volts > 32` guard catches, every operation
in the final trace is either pre-existing or a scope operation — the
PSU driver (`set_channel`, `enable_output`) is never reached — and the
run returns normally. -/
theorem c1_rejection_short_circuits (beh : DriverBehavior)
    (st : GuiState) :
    (∀ v, st.scopeVolts = some v → v.gt (.finite 20) = true →
      (run_master beh st).2 = none ∧
      (run_master beh st).1.ops = st.ops) ∧
    (∀ w, st.psuVolts = some w → w.gt (.finite 32) = true →
      (run_master beh st).2 = none ∧
      ∀ op ∈ (run_master beh st).1.ops,
        op ∈ st.ops ∨ op.isPsuOp = false) := by
  constructor
  · intro v hv h20
    have h := run_scope_sequence_reject beh (st.logMsg .masterStart) v
      (by simpa using hv) h20
    constructor
    · simp [run_master, h.1]
    · simp [run_master, h.1, h.2]
  · intro w hw h32
    obtain ⟨l, e, hshape, hl⟩ :=
      run_scope_sequence_shape beh (st.logMsg .masterStart)
    cases hrb : (run_scope_sequence beh (st.logMsg .masterStart)).1
    · have hmaster : run_master beh st =
          ((run_scope_sequence beh
            (st.logMsg .masterStart)).2.logMsg .sequenceAborted,
            none) := by
        simp [run_master, hrb]
      refine ⟨by rw [hmaster], ?_⟩
      intro op hop
      rw [hmaster] at hop
      simp only [logMsg_ops] at hop
      rw [hshape] at hop
      simp only [logMsg_ops] at hop
      rcases List.mem_append.mp hop with h | h
      · exact Or.inl h
      · exact Or.inr (hl op h)
    · have hw2 : (run_scope_sequence beh
          (st.logMsg .masterStart)).2.psuVolts = some w := by
        rw [hshape]; simpa using hw
      have hrej := set_psu_params_reject beh
        (run_scope_sequence beh (st.logMsg .masterStart)).2 w hw2 h32
      have hmaster : run_master beh st =
          ((set_psu_params beh (run_scope_sequence beh
            (st.logMsg .masterStart)).2).2.logMsg .sequenceAborted,
            none) := by
        simp only [run_master, hrb, hrej.1]
        simp
      refine ⟨by rw [hmaster], ?_⟩
      intro op hop
      rw [hmaster] at hop
      simp only [logMsg_ops] at hop
      rw [hrej.2, hshape] at hop
      simp only [logMsg_ops] at hop
      rcases List.mem_append.mp hop with h | h
      · exact Or.inl h
      · exact Or.inr (hl op h)

/-- Witness for C1: at the concrete over-limit state (scope field 25 V,
PSU field 40 V, both instruments connected in sim mode) both parts of
the theorem apply. -/
theorem c1_witness :
    ((run_master simBehavior stOver).2 = none ∧
      (run_master simBehavior stOver).1.ops = stOver.ops) ∧
    ((run_master simBehavior stOver).2 = none ∧
      ∀ op ∈ (run_master simBehavior stOver).1.ops,
        op ∈ stOver.ops ∨ op.isPsuOp = false) :=
  ⟨(c1_rejection_short_circuits simBehavior stOver).1 (.finite 25)
      rfl (by decide),
   (c1_rejection_short_circuits simBehavior stOver).2 (.finite 40)
      rfl (by decide)⟩

/-! ### Claim C2 -/

/-- C2: The safety boundary is inclusive at the limit.  For a connected
scope, `run_scope_sequence` accepts amplitude exactly 20.0 — the three
scope commands are sent — and rejects every amplitude strictly greater
than 20.0 without sending anything; for a connected PSU,
`set_psu_params` accepts voltage exactly 32.0 — `set_channel` is
sent — and rejects every voltage strictly greater than 32.0. -/
theorem c2_boundary_inclusive (st : GuiState) :
    (∀ f, st.scope = true → st.scopeVolts = some (.finite 20) →
      st.scopeFreq = some f →
      (run_scope_sequence simBehavior st).1 = true ∧
      (run_scope_sequence simBehavior st).2.ops =
        st.ops ++ [.scopeSetAmplitude (.finite 20),
          .scopeSetFrequency f, .scopeEnableSource]) ∧
    (∀ v, st.scopeVolts = some v → v.gt (.finite 20) = true →
      (run_scope_sequence simBehavior st).1 = false ∧
      (run_scope_sequence simBehavior st).2.ops = st.ops) ∧
    (∀ c, st.psu = true → st.psuVolts = some (.finite 32) →
      st.psuCurr = some c →
      (set_psu_params simBehavior st).1 = true ∧
      (set_psu_params simBehavior st).2.ops =
        st.ops ++ [.psuSetChannel (.finite 32) c 1]) ∧
    (∀ w, st.psuVolts = some w → w.gt (.finite 32) = true →
      (set_psu_params simBehavior st).1 = false ∧
      (set_psu_params simBehavior st).2.ops = st.ops) := by
  refine ⟨?_, ?_, ?_, ?_⟩
  · intro f hs hv hf
    rw [run_scope_sequence_success st (.finite 20) f hs hv hf
      (by decide)]
    exact ⟨rfl, rfl⟩
  · intro v hv h20
    exact run_scope_sequence_reject simBehavior st v hv h20
  · intro c hp hw hc
    rw [set_psu_params_success st (.finite 32) c hp hw hc
      (by decide)]
    exact ⟨rfl, rfl⟩
  · intro w hw h32
    exact set_psu_params_reject simBehavior st w hw h32

/-- Witness for C2: amplitude 20.0 and voltage 32.0 are accepted at
`stAtLimit`; amplitude 20.0001 and voltage 32.1 are rejected at
`stJustOver`. -/
theorem c2_witness :
    ((run_scope_sequence simBehavior stAtLimit).1 = true ∧
      (run_scope_sequence simBehavior stAtLimit).2.ops =
        stAtLimit.ops ++ [.scopeSetAmplitude (.finite 20),
          .scopeSetFrequency (.finite 50), .scopeEnableSource]) ∧
    ((run_scope_sequence simBehavior stJustOver).1 = false ∧
      (run_scope_sequence simBehavior stJustOver).2.ops =
        stJustOver.ops) ∧
    ((set_psu_params simBehavior stAtLimit).1 = true ∧
      (set_psu_params simBehavior stAtLimit).2.ops =
        stAtLimit.ops ++ [.psuSetChannel (.finite 32) (.finite 1) 1]) ∧
    ((set_psu_params simBehavior stJustOver).1 = false ∧
      (set_psu_params simBehavior stJustOver).2.ops =
        stJustOver.ops) :=
  ⟨(c2_boundary_inclusive stAtLimit).1 (.finite 50) rfl rfl rfl,
   (c2_boundary_inclusive stJustOver).2.1 (.finite (20.0001 : ℚ)) rfl
     (by simp only [PyFloat.gt, decide_eq_true_eq]; norm_num),
   (c2_boundary_inclusive stAtLimit).2.2.1 (.finite 1) rfl rfl rfl,
   (c2_boundary_inclusive stJustOver).2.2.2 (.finite (32.1 : ℚ)) rfl
     (by simp only [PyFloat.gt, decide_eq_true_eq]; norm_num)⟩

/-! ### Claim C3 -/

/-- C3 counterexample: with the scope connected and the PSU handle
missing (`psu = None`), a master run executes the three scope driver
operations in full before aborting — partial execution occurs — and
the log gains only the start banner, the scope entry and the generic
abort banner: no entry names the missing role. -/
theorem c3_counterexample :
    stPsuMissing.psu = false ∧
    (run_master simBehavior stPsuMissing).1.ops =
      [.scopeSetAmplitude (.finite 5), .scopeSetFrequency (.finite 50),
        .scopeEnableSource] ∧
    (run_master simBehavior stPsuMissing).1.ops ≠ [] ∧
    (run_master simBehavior stPsuMissing).1.log =
      [.masterStart, .scopeSet (.finite 5) (.finite 50),
        .sequenceAborted] := by decide

/-- C3 (amended): when the scope handle is missing, a master run
aborts with no driver operation invoked, gaining exactly the start
banner and the generic abort banner (no entry names the missing
role); when the PSU handle is missing, the run still aborts and never
invokes a PSU operation, but the scope steps may already have
executed — the abort banner is the last entry either way. -/
theorem c3_missing_handle_abort (beh : DriverBehavior)
    (st : GuiState) :
    (st.scope = false →
      run_master beh st =
        ((st.logMsg .masterStart).logMsg .sequenceAborted, none)) ∧
    (st.psu = false →
      (run_master beh st).2 = none ∧
      ((run_master beh st).1.log.getLast? = some .sequenceAborted) ∧
      ∀ op ∈ (run_master beh st).1.ops,
        op ∈ st.ops ∨ op.isPsuOp = false) := by
  constructor
  · intro h
    have hr := run_scope_sequence_noscope beh (st.logMsg .masterStart)
      (by simpa using h)
    simp [run_master, hr]
  · intro h
    obtain ⟨l, e, hshape, hl⟩ :=
      run_scope_sequence_shape beh (st.logMsg .masterStart)
    have hp2 : (run_scope_sequence beh
        (st.logMsg .masterStart)).2.psu = false := by
      rw [hshape]; simpa using h
    have hpsu := set_psu_params_nopsu beh
      (run_scope_sequence beh (st.logMsg .masterStart)).2 hp2
    cases hrb : (run_scope_sequence beh (st.logMsg .masterStart)).1
    · have hmaster : run_master beh st =
          ((run_scope_sequence beh
            (st.logMsg .masterStart)).2.logMsg .sequenceAborted,
            none) := by
        simp [run_master, hrb]
      refine ⟨by rw [hmaster], by rw [hmaster]; simp, ?_⟩
      intro op hop
      rw [hmaster] at hop
      simp only [logMsg_ops] at hop
      rw [hshape] at hop
      simp only [logMsg_ops] at hop
      rcases List.mem_append.mp hop with hm | hm
      · exact Or.inl hm
      · exact Or.inr (hl op hm)
    · have hmaster : run_master beh st =
          ((run_scope_sequence beh
            (st.logMsg .masterStart)).2.logMsg .sequenceAborted,
            none) := by
        simp only [run_master, hrb, hpsu]
        simp
      refine ⟨by rw [hmaster], by rw [hmaster]; simp, ?_⟩
      intro op hop
      rw [hmaster] at hop
      simp only [logMsg_ops] at hop
      rw [hshape] at hop
      simp only [logMsg_ops] at hop
      rcases List.mem_append.mp hop with hm | hm
      · exact Or.inl hm
      · exact Or.inr (hl op hm)

/-- Witness for C3: the amended theorem applied with the scope handle
missing (fresh dashboard, `st0`) and with the PSU handle missing
(`stPsuMissing`). -/
theorem c3_witness :
    (run_master simBehavior st0 =
      ((st0.logMsg .masterStart).logMsg .sequenceAborted, none)) ∧
    ((run_master simBehavior stPsuMissing).2 = none ∧
      ((run_master simBehavior
        stPsuMissing).1.log.getLast? = some .sequenceAborted) ∧
      ∀ op ∈ (run_master simBehavior stPsuMissing).1.ops,
        op ∈ stPsuMissing.ops ∨ op.isPsuOp = false) :=
  ⟨(c3_missing_handle_abort simBehavior st0).1 rfl,
   (c3_missing_handle_abort simBehavior stPsuMissing).2 rfl⟩

/-! ### Claim C4 -/

/-- C4 counterexample: a fully successful master run at the default
in-limit settings invokes five driver steps (`set_source_amplitude`,
`set_source_frequency`, `enable_source`, `set_channel`,
`enable_output`) but the log gains five entries, not the six that
"one entry per step plus one completion banner" demands: the three
scope steps share a single combined entry and an extra start banner is
also appended. -/
theorem c4_counterexample :
    (run_master simBehavior stReady).2 = none ∧
    (run_master simBehavior stReady).1.ops.length = 5 ∧
    (run_master simBehavior stReady).1.log.length = 5 ∧
    (run_master simBehavior stReady).1.log.length ≠
      (run_master simBehavior stReady).1.ops.length + 1 := by decide

/-- C4 (amended): for every master run against connected simulated
instruments whose fields parse in-limit, the run completes and the
session log gains exactly five entries in execution order: the start
banner, one combined entry for the scope configuration (covering the
amplitude, frequency and output-enable steps), one entry for the PSU
configuration, one for PSU output on, and the completion banner; the
driver trace gains the five operations in step order. -/
theorem c4_master_success_five_entries (st : GuiState)
    (v f w c : PyFloat)
    (hs : st.scope = true) (hp : st.psu = true)
    (hv : st.scopeVolts = some v) (hf : st.scopeFreq = some f)
    (h20 : v.gt (.finite 20) = false) (hw : st.psuVolts = some w)
    (hc : st.psuCurr = some c) (h32 : w.gt (.finite 32) = false) :
    run_master simBehavior st =
      ({ st with
         ops := st.ops ++ [.scopeSetAmplitude v, .scopeSetFrequency f,
           .scopeEnableSource, .psuSetChannel w c 1,
           .psuEnableOutput 1],
         log := st.log ++ [.masterStart, .scopeSet v f, .psuSet w c,
           .psuOutputOn, .sequenceComplete],
         psuInd := true }, none) := by
  obtain ⟨sc, ps, sv, sf, pv, pc, lg, os, ind, ssl, psl, ir, pt, lp,
    tk⟩ := st
  simp only at hs hp hv hf hw hc
  subst hs hp hv hf hw hc
  simp [run_master, run_scope_sequence, set_psu_params, toggle_psu,
    simBehavior, GuiState.logMsg, GuiState.invoke, h20, h32]

/-- Witness for C4: the amended theorem applied at the connected
default state (5 V / 50 Hz scope, 12 V / 1 A PSU). -/
theorem c4_witness :
    run_master simBehavior stReady =
      ({ stReady with
         ops := stReady.ops ++ [.scopeSetAmplitude (.finite 5),
           .scopeSetFrequency (.finite 50), .scopeEnableSource,
           .psuSetChannel (.finite 12) (.finite 1) 1,
           .psuEnableOutput 1],
         log := stReady.log ++ [.masterStart,
           .scopeSet (.finite 5) (.finite 50),
           .psuSet (.finite 12) (.finite 1), .psuOutputOn,
           .sequenceComplete],
         psuInd := true }, none) :=
  c4_master_success_five_entries stReady (.finite 5) (.finite 50)
    (.finite 12) (.finite 1) rfl rfl rfl rfl (by decide) rfl rfl
    (by decide)

/-! ### Claim C5 -/

/-- C5 counterexample: the cause string of a failure is not preserved
anywhere.  A scope driver whose `set_source_amplitude` raises with
cause "timeout: no route to host" leaves the dashboard in exactly the
same state as one that raises "bus error" — the bare `except` returns
`False` with nothing logged — and a connection failure with cause
"timeout: no route to host" likewise produces the same state as
"connection refused": only the fixed text ERROR is displayed. -/
theorem c5_counterexample :
    run_scope_sequence (behFailAmp "timeout: no route to host")
        stReady =
      run_scope_sequence (behFailAmp "bus error") stReady ∧
    (run_scope_sequence (behFailAmp "timeout: no route to host")
      stReady).1 = false ∧
    (run_scope_sequence (behFailAmp "timeout: no route to host")
      stReady).2.log = stReady.log ∧
    connect_instruments ⟨.error "timeout: no route to host",
        .error "x"⟩ st0 =
      connect_instruments ⟨.error "connection refused",
        .error "y"⟩ st0 := by decide

/-- C5 (amended): a driver failure at any of the four guarded
sequence steps (`set_source_amplitude`, `set_source_frequency`,
`enable_source` in `run_scope_sequence`; `set_channel` in
`set_psu_params`) halts the sequence exactly at the failing step with
a `False` return, the bare `except` discarding the cause: the result
is identical whatever the cause string and nothing is logged.  The
PSU output-on step is not guarded: a failure in `psu.enable_output`
propagates out of `toggle_psu` as an exception carrying the cause
instead of a `False` return, and is never written to the session log.
A failed connection leaves that handle unregistered with its status
label reading the fixed text ERROR, again with a state independent of
the cause string. -/
theorem c5_failure_halts_cause_discarded (x y : String)
    (st : GuiState) :
    (∀ v f, st.scope = true → st.scopeVolts = some v →
      st.scopeFreq = some f → v.gt (.finite 20) = false →
      (run_scope_sequence (behFailAmp x) st =
          (false, st.invoke (.scopeSetAmplitude v)) ∧
        run_scope_sequence (behFailAmp x) st =
          run_scope_sequence (behFailAmp y) st) ∧
      (run_scope_sequence (behFailFreq x) st =
          (false, (st.invoke (.scopeSetAmplitude v)).invoke
            (.scopeSetFrequency f)) ∧
        run_scope_sequence (behFailFreq x) st =
          run_scope_sequence (behFailFreq y) st) ∧
      (run_scope_sequence (behFailEnable x) st =
          (false, ((st.invoke (.scopeSetAmplitude v)).invoke
            (.scopeSetFrequency f)).invoke .scopeEnableSource) ∧
        run_scope_sequence (behFailEnable x) st =
          run_scope_sequence (behFailEnable y) st)) ∧
    (∀ w c, st.psu = true → st.psuVolts = some w →
      st.psuCurr = some c → w.gt (.finite 32) = false →
      set_psu_params (behFailChannel x) st =
        (false, st.invoke (.psuSetChannel w c 1)) ∧
      set_psu_params (behFailChannel x) st =
        set_psu_params (behFailChannel y) st) ∧
    (st.psu = true →
      toggle_psu (behFailOutput x) true st =
        (st.invoke (.psuEnableOutput 1), some x)) ∧
    (∀ cb, (connect_instruments ⟨.error x, cb⟩ st).scope = st.scope ∧
      (connect_instruments ⟨.error x, cb⟩ st).scopeStatus = "ERROR" ∧
      connect_instruments ⟨.error x, cb⟩ st =
        connect_instruments ⟨.error y, cb⟩ st) ∧
    (∀ ca, (connect_instruments ⟨ca, .error x⟩ st).psu = st.psu ∧
      (connect_instruments ⟨ca, .error x⟩ st).psuStatus = "ERROR" ∧
      connect_instruments ⟨ca, .error x⟩ st =
        connect_instruments ⟨ca, .error y⟩ st) := by
  obtain ⟨sc, ps, sv, sf, pv, pc, lg, os, ind, ssl, psl, ir, pt, lp,
    tk⟩ := st
  refine ⟨?_, ?_, ?_, ?_, ?_⟩
  · intro v f hs hv hf h20
    simp only at hs hv hf
    subst hs hv hf
    refine ⟨⟨?_, ?_⟩, ⟨?_, ?_⟩, ⟨?_, ?_⟩⟩ <;>
      simp [run_scope_sequence, behFailAmp, behFailFreq,
        behFailEnable, simBehavior, h20, GuiState.invoke]
  · intro w c hp hw hc h32
    simp only at hp hw hc
    subst hp hw hc
    constructor <;>
      simp [set_psu_params, behFailChannel, simBehavior, h32,
        GuiState.invoke]
  · intro hp
    simp only at hp
    subst hp
    simp [toggle_psu, behFailOutput, simBehavior, GuiState.invoke]
  · intro cb
    cases cb with
    | ok u =>
      cases sc <;> cases ir <;>
        refine ⟨?_, ?_, ?_⟩ <;>
          simp [connect_instruments, update_graph, GuiState.logMsg]
    | error e =>
      cases sc <;> cases ps <;> cases ir <;>
        refine ⟨?_, ?_, ?_⟩ <;>
          simp [connect_instruments, update_graph, GuiState.logMsg]
  · intro ca
    cases ca with
    | ok u =>
      cases ps <;> cases ir <;>
        refine ⟨?_, ?_, ?_⟩ <;>
          simp [connect_instruments, update_graph, GuiState.logMsg]
    | error e =>
      cases sc <;> cases ps <;> cases ir <;>
        refine ⟨?_, ?_, ?_⟩ <;>
          simp [connect_instruments, update_graph, GuiState.logMsg]

/-- Witness for C5: each guarded step failing at the connected default
state halts the sequence right there with the same outcome for causes
"timeout" and "refused"; a failing `psu.enable_output` propagates its
cause out of `toggle_psu`; and a failed scope (resp. PSU) connection
from the fresh dashboard shows ERROR with a state independent of the
cause. -/
theorem c5_witness :
    ((run_scope_sequence (behFailAmp "timeout") stReady =
        (false, stReady.invoke (.scopeSetAmplitude (.finite 5))) ∧
      run_scope_sequence (behFailAmp "timeout") stReady =
        run_scope_sequence (behFailAmp "refused") stReady) ∧
     (run_scope_sequence (behFailFreq "timeout") stReady =
        (false, (stReady.invoke
          (.scopeSetAmplitude (.finite 5))).invoke
          (.scopeSetFrequency (.finite 50))) ∧
      run_scope_sequence (behFailFreq "timeout") stReady =
        run_scope_sequence (behFailFreq "refused") stReady) ∧
     (run_scope_sequence (behFailEnable "timeout") stReady =
        (false, ((stReady.invoke
          (.scopeSetAmplitude (.finite 5))).invoke
          (.scopeSetFrequency (.finite 50))).invoke
          .scopeEnableSource) ∧
      run_scope_sequence (behFailEnable "timeout") stReady =
        run_scope_sequence (behFailEnable "refused") stReady)) ∧
    (set_psu_params (behFailChannel "timeout") stReady =
        (false, stReady.invoke
          (.psuSetChannel (.finite 12) (.finite 1) 1)) ∧
      set_psu_params (behFailChannel "timeout") stReady =
        set_psu_params (behFailChannel "refused") stReady) ∧
    (toggle_psu (behFailOutput "timeout") true stReady =
      (stReady.invoke (.psuEnableOutput 1), some "timeout")) ∧
    ((connect_instruments ⟨.error "timeout", .ok ()⟩ st0).scope =
        st0.scope ∧
      (connect_instruments ⟨.error "timeout",
        .ok ()⟩ st0).scopeStatus = "ERROR" ∧
      connect_instruments ⟨.error "timeout", .ok ()⟩ st0 =
        connect_instruments ⟨.error "refused", .ok ()⟩ st0) ∧
    ((connect_instruments ⟨.ok (), .error "timeout"⟩ st0).psu =
        st0.psu ∧
      (connect_instruments ⟨.ok (),
        .error "timeout"⟩ st0).psuStatus = "ERROR" ∧
      connect_instruments ⟨.ok (), .error "timeout"⟩ st0 =
        connect_instruments ⟨.ok (), .error "refused"⟩ st0) :=
  ⟨(c5_failure_halts_cause_discarded "timeout" "refused" stReady).1
      (.finite 5) (.finite 50) rfl rfl rfl (by decide),
   (c5_failure_halts_cause_discarded "timeout" "refused" stReady).2.1
      (.finite 12) (.finite 1) rfl rfl rfl (by decide),
   (c5_failure_halts_cause_discarded "timeout" "refused"
      stReady).2.2.1 rfl,
   (c5_failure_halts_cause_discarded "timeout" "refused"
      st0).2.2.2.1 (.ok ()),
   (c5_failure_halts_cause_discarded "timeout" "refused"
      st0).2.2.2.2 (.ok ())⟩

/-! ### Claim C6 -/

/-- C6 counterexample: input that does not parse as a finite number
need not be rejected at all.  With "nan" in the fields — which
`float()` parses, but not to a finite value — the guard `nan > 20`
(resp. `nan > 32`) is false, so `run_scope_sequence` invokes all
three driver operations with NaN and returns `True`, and
`set_psu_params` invokes `set_channel` with NaN and returns `True`;
with text that raises `ValueError`, both functions return `False`
leaving the state exactly unchanged.  In no case is a reason
"invalid input" carried or logged. -/
theorem c6_counterexample :
    stNanInput.scopeVolts = some .nan ∧
    (run_scope_sequence simBehavior stNanInput).1 = true ∧
    (run_scope_sequence simBehavior stNanInput).2.ops =
      stNanInput.ops ++ [.scopeSetAmplitude .nan,
        .scopeSetFrequency (.finite 50), .scopeEnableSource] ∧
    (set_psu_params simBehavior stNanInput).1 = true ∧
    (set_psu_params simBehavior stNanInput).2.ops =
      stNanInput.ops ++ [.psuSetChannel .nan (.finite 1) 1] ∧
    stNoParse.scopeVolts = none ∧
    run_scope_sequence simBehavior stNoParse = (false, stNoParse) ∧
    set_psu_params simBehavior stNoParse = (false, stNoParse) := by
  decide

/-- C6 (amended): input that raises `ValueError` (non-numeric or
missing) makes `run_scope_sequence` and `set_psu_params` return
`False` without raising, invoking no driver operation and logging
nothing — no "invalid input" reason exists anywhere in the code.
Input parsing to a non-finite float is not treated as invalid at all:
positive infinity happens to be caught by the over-limit guard (a
SAFETY entry is logged, no driver operation reached), but NaN and
negative infinity pass the guard — the driver operations are invoked
with the non-finite value and the functions return `True`. -/
theorem c6_nonfinite_not_rejected (beh : DriverBehavior)
    (st : GuiState) :
    ((st.scopeVolts = none ∨ st.scopeFreq = none) →
      run_scope_sequence beh st = (false, st)) ∧
    ((st.psuVolts = none ∨ st.psuCurr = none) →
      set_psu_params beh st = (false, st)) ∧
    (∀ v f, (v = PyFloat.nan ∨ v = PyFloat.ninf) → st.scope = true →
      st.scopeVolts = some v → st.scopeFreq = some f →
      run_scope_sequence simBehavior st =
        (true, { st with
          ops := st.ops ++ [.scopeSetAmplitude v,
            .scopeSetFrequency f, .scopeEnableSource],
          log := st.log ++ [.scopeSet v f] })) ∧
    (∀ v c, (v = PyFloat.nan ∨ v = PyFloat.ninf) → st.psu = true →
      st.psuVolts = some v → st.psuCurr = some c →
      set_psu_params simBehavior st =
        (true, { st with
          ops := st.ops ++ [.psuSetChannel v c 1],
          log := st.log ++ [.psuSet v c] })) ∧
    (∀ f, st.scope = true → st.scopeVolts = some PyFloat.inf →
      st.scopeFreq = some f →
      run_scope_sequence beh st =
        (false, st.logMsg .scopeSafetyReject)) ∧
    (∀ c, st.psu = true → st.psuVolts = some PyFloat.inf →
      st.psuCurr = some c →
      set_psu_params beh st = (false, st.logMsg .psuSafetyReject))
    := by
  refine ⟨run_scope_sequence_noparse beh st,
    set_psu_params_noparse beh st, ?_, ?_, ?_, ?_⟩
  · rintro v f (rfl | rfl) hs hv hf
    · exact run_scope_sequence_success st .nan f hs hv hf rfl
    · exact run_scope_sequence_success st .ninf f hs hv hf rfl
  · rintro v c (rfl | rfl) hp hw hc
    · exact set_psu_params_success st .nan c hp hw hc rfl
    · exact set_psu_params_success st .ninf c hp hw hc rfl
  · intro f hs hv hf
    exact run_scope_sequence_rejected beh st .inf f hs hv hf rfl
  · intro c hp hw hc
    exact set_psu_params_rejected beh st .inf c hp hw hc rfl

/-- Witness for C6: at the three concrete states — unparsable text,
"nan", and "inf" in the fields — the amended theorem yields the
silent `False`, the NaN-reaching-the-driver run, and the SAFETY
rejection of infinity, respectively. -/
theorem c6_witness :
    (run_scope_sequence simBehavior stNoParse = (false, stNoParse)) ∧
    (set_psu_params simBehavior stNoParse = (false, stNoParse)) ∧
    (run_scope_sequence simBehavior stNanInput =
      (true, { stNanInput with
        ops := stNanInput.ops ++ [.scopeSetAmplitude .nan,
          .scopeSetFrequency (.finite 50), .scopeEnableSource],
        log := stNanInput.log ++ [.scopeSet .nan (.finite 50)] })) ∧
    (set_psu_params simBehavior stNanInput =
      (true, { stNanInput with
        ops := stNanInput.ops ++ [.psuSetChannel .nan (.finite 1) 1],
        log := stNanInput.log ++ [.psuSet .nan (.finite 1)] })) ∧
    (run_scope_sequence simBehavior stInfInput =
      (false, stInfInput.logMsg .scopeSafetyReject)) ∧
    (set_psu_params simBehavior stInfInput =
      (false, stInfInput.logMsg .psuSafetyReject)) :=
  ⟨(c6_nonfinite_not_rejected simBehavior stNoParse).1 (Or.inl rfl),
   (c6_nonfinite_not_rejected simBehavior stNoParse).2.1
     (Or.inl rfl),
   (c6_nonfinite_not_rejected simBehavior stNanInput).2.2.1
     .nan (.finite 50) (Or.inl rfl) rfl rfl rfl,
   (c6_nonfinite_not_rejected simBehavior stNanInput).2.2.2.1
     .nan (.finite 1) (Or.inl rfl) rfl rfl rfl,
   (c6_nonfinite_not_rejected simBehavior stInfInput).2.2.2.2.1
     (.finite 50) rfl rfl rfl,
   (c6_nonfinite_not_rejected simBehavior stInfInput).2.2.2.2.2
     (.finite 1) rfl rfl rfl⟩

/-! ### Claim C7 -/

/-- C7 counterexample: `emergency_stop` has no exception handling.
With a connected scope whose `reset` raises "bus error", the exception
escapes the function (it is re-raised, not absorbed) and no log entry
records the failure — only the emergency-stop banner was appended
before the raise, and the PSU half never runs. -/
theorem c7_counterexample :
    (emergency_stop (behFailReset "bus error") stReady).2 =
      some "bus error" ∧
    (emergency_stop (behFailReset "bus error") stReady).1.log =
      stReady.log ++ [.emergencyStop] ∧
    (emergency_stop (behFailReset "bus error") stReady).1.ops =
      stReady.ops ++ [.scopeReset] := by decide

/-- C7 (amended): `emergency_stop` with zero connected handles appends
exactly one log entry, invokes no driver operation and raises no
error; in every state it appends exactly one entry and issues
`reset` / `disable_output` only to the connected handles (so repeated
calls behave identically); but a driver failure during it propagates
out of the function un-logged rather than being logged and absorbed. -/
theorem c7_estop_connected_only (st : GuiState) :
    (st.scope = false → st.psu = false →
      emergency_stop simBehavior st =
        (st.logMsg .emergencyStop, none)) ∧
    ((emergency_stop simBehavior st).2 = none ∧
      (emergency_stop simBehavior st).1.log =
        st.log ++ [.emergencyStop] ∧
      (emergency_stop simBehavior st).1.ops = st.ops ++
        ((if st.scope then [DriverOp.scopeReset] else []) ++
          (if st.psu then [DriverOp.psuDisableOutput 1] else []))) := by
  obtain ⟨sc, ps, sv, sf, pv, pc, lg, os, ind, ssl, psl, ir, pt, lp,
    tk⟩ := st
  cases sc <;> cases ps <;>
    simp [emergency_stop, estopScopePart, estopPsuPart, simBehavior,
      GuiState.logMsg, GuiState.invoke]

/-- Witness for C7: emergency stop with nothing connected (fresh
dashboard) logs exactly the one banner and does nothing else; with
both simulated handles connected it resets the scope and disables the
PSU output, no error raised. -/
theorem c7_witness :
    (emergency_stop simBehavior st0 =
      (st0.logMsg .emergencyStop, none)) ∧
    ((emergency_stop simBehavior stReady).2 = none ∧
      (emergency_stop simBehavior stReady).1.log =
        stReady.log ++ [.emergencyStop] ∧
      (emergency_stop simBehavior stReady).1.ops = stReady.ops ++
        ((if stReady.scope then [DriverOp.scopeReset] else []) ++
          (if stReady.psu then [DriverOp.psuDisableOutput 1]
            else []))) :=
  ⟨(c7_estop_connected_only st0).1 rfl rfl,
   (c7_estop_connected_only stReady).2⟩

/-! ### Claim C8 -/

/-- C8: the redraw tick checks `is_running` first.  Once `on_closing`
clears the flag, every tick from then on — however many fire — does no
work (no redraw, `ticks` and `lastPlot` frozen) and reschedules
nothing (`pendingTick` stays false): after shutdown the loop is
permanently stopped. -/
theorem c8_shutdown_stops_ticks (st : GuiState) (n : ℕ) :
    update_graph^[n + 1] (on_closing st) =
      { st with isRunning := false, pendingTick := false } := by
  induction n with
  | zero => simp [update_graph, on_closing]
  | succ k ih =>
    rw [Function.iterate_succ_apply', ih]
    simp [update_graph]

/-! ### Claim C9 -/

/-- C9: when the workbook file is absent, `update_excel_log` creates a
workbook whose first row is the fixed header and appends the session
row; when it exists, every previously existing row is preserved
unchanged, exactly one new row is appended, and that row is the last. -/
theorem c9_excel_append (file : Option (List (List String)))
    (row : List String) :
    (file = none →
      update_excel_log file row = [excelHeader, row]) ∧
    (∀ rows, file = some rows →
      update_excel_log file row = rows ++ [row] ∧
      (update_excel_log file row).take rows.length = rows ∧
      (update_excel_log file row).length = rows.length + 1 ∧
      (update_excel_log file row).getLast? = some row) := by
  constructor
  · intro h; subst h; rfl
  · intro rows h; subst h
    refine ⟨rfl, ?_, ?_, ?_⟩
    · simp [update_excel_log]
    · simp [update_excel_log]
    · simp [update_excel_log]

/-- Witness for C9: creating the workbook from nothing gives header
plus the session row; appending a second session row to that workbook
preserves both earlier rows and adds exactly the one new last row. -/
theorem c9_witness :
    (update_excel_log none
        (sessionRow "t1" "amy" "5.0" "50" "12.0" "1.0" "ok") =
      [excelHeader,
        sessionRow "t1" "amy" "5.0" "50" "12.0" "1.0" "ok"]) ∧
    (update_excel_log
        (some [excelHeader,
          sessionRow "t1" "amy" "5.0" "50" "12.0" "1.0" "ok"])
        (sessionRow "t2" "amy" "20.0" "60" "32.0" "2.0" "ok2") =
      [excelHeader,
        sessionRow "t1" "amy" "5.0" "50" "12.0" "1.0" "ok",
        sessionRow "t2" "amy" "20.0" "60" "32.0" "2.0" "ok2"] ∧
      (update_excel_log
        (some [excelHeader,
          sessionRow "t1" "amy" "5.0" "50" "12.0" "1.0" "ok"])
        (sessionRow "t2" "amy" "20.0" "60" "32.0" "2.0" "ok2")).take
          2 =
        [excelHeader,
          sessionRow "t1" "amy" "5.0" "50" "12.0" "1.0" "ok"] ∧
      (update_excel_log
        (some [excelHeader,
          sessionRow "t1" "amy" "5.0" "50" "12.0" "1.0" "ok"])
        (sessionRow "t2" "amy" "20.0" "60" "32.0" "2.0" "ok2")).length
          = 2 + 1 ∧
      (update_excel_log
        (some [excelHeader,
          sessionRow "t1" "amy" "5.0" "50" "12.0" "1.0" "ok"])
        (sessionRow "t2" "amy" "20.0" "60" "32.0" "2.0"
          "ok2")).getLast? =
        some (sessionRow "t2" "amy" "20.0" "60" "32.0" "2.0" "ok2")) :=
  ⟨(c9_excel_append none
      (sessionRow "t1" "amy" "5.0" "50" "12.0" "1.0" "ok")).1 rfl,
   (c9_excel_append
      (some [excelHeader,
        sessionRow "t1" "amy" "5.0" "50" "12.0" "1.0" "ok"])
      (sessionRow "t2" "amy" "20.0" "60" "32.0" "2.0" "ok2")).2
      [excelHeader, sessionRow "t1" "amy" "5.0" "50" "12.0" "1.0" "ok"]
      rfl⟩

/-! ### Claim C10 -/

/-- C10: on every tick with `is_running` set, an unparsable amplitude
field makes the plotted amplitude default to 1.0 and an unparsable
frequency field makes the plotted frequency default to 1.0; the tick
is a total function (no exception escapes) and the loop is always
rescheduled — unparsable input never stops the animation. -/
theorem c10_tick_defaults (st : GuiState)
    (h : st.isRunning = true) :
    (st.scopeVolts = none →
      (update_graph st).lastPlot =
        some (.finite 1, st.scopeFreq.getD (.finite 1))) ∧
    (st.scopeFreq = none →
      (update_graph st).lastPlot =
        some (st.scopeVolts.getD (.finite 1), .finite 1)) ∧
    (update_graph st).pendingTick = true ∧
    (update_graph st).ticks = st.ticks + 1 := by
  obtain ⟨sc, ps, sv, sf, pv, pc, lg, os, ind, ssl, psl, ir, pt, lp,
    tk⟩ := st
  simp only at h
  subst h
  refine ⟨?_, ?_, ?_, ?_⟩
  · intro hv; simp only at hv; subst hv; simp [update_graph]
  · intro hf; simp only at hf; subst hf; simp [update_graph]
  · simp [update_graph]
  · simp [update_graph]

/-- Witness for C10: a tick at the concrete animating state whose
scope fields are both unparsable plots the (1.0, 1.0) default wave,
advances the tick counter and reschedules itself. -/
theorem c10_witness :
    ((update_graph stBothNoParse).lastPlot =
      some (.finite 1, stBothNoParse.scopeFreq.getD (.finite 1))) ∧
    ((update_graph stBothNoParse).lastPlot =
      some (stBothNoParse.scopeVolts.getD (.finite 1), .finite 1)) ∧
    (update_graph stBothNoParse).pendingTick = true ∧
    (update_graph stBothNoParse).ticks = stBothNoParse.ticks + 1 :=
  ⟨(c10_tick_defaults stBothNoParse rfl).1 rfl,
   (c10_tick_defaults stBothNoParse rfl).2.1 rfl,
   (c10_tick_defaults stBothNoParse rfl).2.2.1,
   (c10_tick_defaults stBothNoParse rfl).2.2.2⟩

end Instruments
